import Mathlib

/-!
# Verification of the lighthouse `MockBuilder` test double

Shallow embedding of `beacon_node/execution_layer/src/test_utils/mock_builder.rs`.

Machine integers are modelled as `Nat` with explicit reduction modulo `2 ^ w`
where the Rust code can wrap or truncate.  SSZ byte strings are `List Nat`
(each entry a byte).  Fallible Rust code returns `Except Error α`.

The Rust `Error::Custom` carries a formatted diagnostic string; we embed each
distinct message shape as a constructor of `ErrMsg` that keeps the formatted-in
arguments, so that theorems can talk about the values an error carries.
-/

namespace MockBuilder

/-- The error type of `mev_build_rs`; the mock only ever produces
`Error::Custom(msg)`, with `msg` a formatted string.  Each distinct format
string in `mock_builder.rs` becomes one constructor, keeping its arguments. -/
inductive ErrMsg where
  | missingRegistration
  | missingHeadBlock
  /-- Message carrying the head execution hash and the request's parent hash,
  in that order (the format string at mock_builder.rs:202-205). -/
  | headMismatch (expected got : Nat)
  | missingFinalizedBlock
  | missingValidatorFromState
  | missingHeadState
  | missingRandaoMix
  | missingElPayload
  | missingPayloadForTxRoot
  | sszDeserializeFailure
  | jsonFieldMissing (field : String)
  | jsonFieldShape (field : String)
  | signatureInvalid
  deriving DecidableEq, Repr

/-- The `mev_build_rs::Error` type, restricted to the variants the mock produces. -/
inductive Error where
  | custom (msg : ErrMsg)
  deriving DecidableEq, Repr

/-! ## Bytes and the two SSZ codecs

`to_ssz_rs` (mock_builder.rs:330) encodes with the `ssz` crate (`Encode`) and
decodes with `ssz_rs`; `from_ssz_rs` (mock_builder.rs:321) is the reverse
direction.  All values the mock converts are fixed-width types (`Address` is
20 bytes, `Uint256`/`Hash256` are 32 bytes, `BlsPublicKey` is 48 bytes), whose
encoding in both crates is the raw little-endian byte string of that width, and
whose decoding succeeds exactly on inputs of that width. -/

/-- Little-endian byte string of width `w` for the value `v` (truncates to
`v % 256 ^ w`), as both `ssz` and `ssz_rs` encode fixed-width integers and
fixed-length byte vectors. -/
def natToBytesLE : Nat → Nat → List Nat
  | 0, _ => []
  | w + 1, v => (v % 256) :: natToBytesLE w (v / 256)

/-- Value of a little-endian byte string. -/
def bytesToNatLE : List Nat → Nat
  | [] => 0
  | b :: bs => b + 256 * bytesToNatLE bs

/-- Decoding a fixed-width value: succeeds exactly when the byte string has the
declared width. -/
def decodeFixed (w : Nat) (bs : List Nat) : Except Error Nat :=
  if bs.length = w then .ok (bytesToNatLE bs) else .error (.custom .sszDeserializeFailure)

/-- Model of `to_ssz_rs` / `from_ssz_rs` specialised to a fixed-width type of `w` bytes:
encode with one codec, decode with the other (mock_builder.rs:321-332). -/
def sszRoundTrip (w v : Nat) : Except Error Nat :=
  decodeFixed w (natToBytesLE w v)

/-! ## The two payload-header schemas and the serde_json bridge

`fetch_best_bid` converts lighthouse's `ExecutionPayloadHeader<E>` (merge fork)
into `mev_build_rs`'s `ServerPayloadHeader` (bellatrix) by serialising with
`serde_json` and deserialising the resulting text (mock_builder.rs:279-281);
`open_bid` does the same for full payloads (mock_builder.rs:316-317),
converting lighthouse's `ExecutionPayload<E>` into `mev_build_rs`'s
`ServerPayload`.  Each schema pair shares all of its fields: fourteen for the
headers, and fourteen for the full payloads (the header's `transactions_root`
is replaced by the `transactions` list). -/

/-- A JSON field value in the text intermediate: the serde encodings in play
render integers, hashes, addresses and byte strings as JSON strings, and the
transactions of a full payload as a JSON array of byte strings; what matters
for the bridge is the decoded value, kept here structurally. -/
inductive JsonVal where
  | num (n : Nat)
  | bytes (bs : List Nat)
  | txs (ts : List (List Nat))
  deriving DecidableEq, Repr

/-- The structured-text intermediate: a JSON object as a key/value list. -/
def JsonObj : Type := List (String × JsonVal)

/-- lighthouse `types::ExecutionPayloadHeader<E>` (merge variant), the output
of `to_execution_payload_header()` (mock_builder.rs:277).  Numeric, hash and
address fields are `Nat`; `logs_bloom` and `extra_data` are byte strings. -/
structure ExecutionPayloadHeader where
  parent_hash : Nat
  fee_recipient : Nat
  state_root : Nat
  receipts_root : Nat
  logs_bloom : List Nat
  prev_randao : Nat
  block_number : Nat
  gas_limit : Nat
  gas_used : Nat
  timestamp : Nat
  extra_data : List Nat
  base_fee_per_gas : Nat
  block_hash : Nat
  transactions_root : Nat
  deriving DecidableEq, Repr

/-- The `mev_build_rs::ExecutionPayloadHeader` type (the `ServerPayloadHeader` import,
mock_builder.rs:11), the bellatrix header of `ethereum-consensus`: the same
fourteen fields as the lighthouse schema. -/
structure ServerPayloadHeader where
  parent_hash : Nat
  fee_recipient : Nat
  state_root : Nat
  receipts_root : Nat
  logs_bloom : List Nat
  prev_randao : Nat
  block_number : Nat
  gas_limit : Nat
  gas_used : Nat
  timestamp : Nat
  extra_data : List Nat
  base_fee_per_gas : Nat
  block_hash : Nat
  transactions_root : Nat
  deriving DecidableEq, Repr, Inhabited

/-- Modelled from the spec: the `serde_json` serialisation of lighthouse's
`ExecutionPayloadHeader` (its serde derive lives in `consensus/types`, outside
`src/`); routed "through a text intermediate (structured-text encode of one
schema, structured-text decode into the other)" per §6 of the spec.  Emits one
key per schema field. -/
def ExecutionPayloadHeader.toJson (h : ExecutionPayloadHeader) : JsonObj :=
  [("parent_hash", .num h.parent_hash),
   ("fee_recipient", .num h.fee_recipient),
   ("state_root", .num h.state_root),
   ("receipts_root", .num h.receipts_root),
   ("logs_bloom", .bytes h.logs_bloom),
   ("prev_randao", .num h.prev_randao),
   ("block_number", .num h.block_number),
   ("gas_limit", .num h.gas_limit),
   ("gas_used", .num h.gas_used),
   ("timestamp", .num h.timestamp),
   ("extra_data", .bytes h.extra_data),
   ("base_fee_per_gas", .num h.base_fee_per_gas),
   ("block_hash", .num h.block_hash),
   ("transactions_root", .num h.transactions_root)]

/-- Look up a numeric field of a JSON object. -/
def jsonNum (j : JsonObj) (k : String) : Except Error Nat :=
  match List.lookup k j with
  | none => .error (.custom (.jsonFieldMissing k))
  | some (.num n) => .ok n
  | some _ => .error (.custom (.jsonFieldShape k))

/-- Look up a byte-string field of a JSON object. -/
def jsonBytes (j : JsonObj) (k : String) : Except Error (List Nat) :=
  match List.lookup k j with
  | none => .error (.custom (.jsonFieldMissing k))
  | some (.bytes bs) => .ok bs
  | some _ => .error (.custom (.jsonFieldShape k))

/-- Modelled from the spec: the `serde_json` deserialisation of
`ServerPayloadHeader` (its serde derive lives in the `ethereum-consensus`
crate, outside `src/`): each schema field is read from the text intermediate;
a missing or ill-shaped field is a translation error. -/
def ServerPayloadHeader.fromJson (j : JsonObj) : Except Error ServerPayloadHeader := do
  let parent_hash ← jsonNum j ("parent_hash")
  let fee_recipient ← jsonNum j ("fee_recipient")
  let state_root ← jsonNum j ("state_root")
  let receipts_root ← jsonNum j ("receipts_root")
  let logs_bloom ← jsonBytes j ("logs_bloom")
  let prev_randao ← jsonNum j ("prev_randao")
  let block_number ← jsonNum j ("block_number")
  let gas_limit ← jsonNum j ("gas_limit")
  let gas_used ← jsonNum j ("gas_used")
  let timestamp ← jsonNum j ("timestamp")
  let extra_data ← jsonBytes j ("extra_data")
  let base_fee_per_gas ← jsonNum j ("base_fee_per_gas")
  let block_hash ← jsonNum j ("block_hash")
  let transactions_root ← jsonNum j ("transactions_root")
  pure { parent_hash, fee_recipient, state_root, receipts_root, logs_bloom,
         prev_randao, block_number, gas_limit, gas_used, timestamp, extra_data,
         base_fee_per_gas, block_hash, transactions_root }

/-- Schema A to schema B: `serde_json::to_string` of the lighthouse header,
`serde_json::from_str` into the server header (mock_builder.rs:279-281). -/
def translateHeaderAB (h : ExecutionPayloadHeader) : Except Error ServerPayloadHeader :=
  ServerPayloadHeader.fromJson h.toJson

/-- Modelled from the spec: the `serde_json` serialisation of
`ServerPayloadHeader`, the reverse leg of the §8 round-trip property. -/
def ServerPayloadHeader.toJson (h : ServerPayloadHeader) : JsonObj :=
  [("parent_hash", .num h.parent_hash),
   ("fee_recipient", .num h.fee_recipient),
   ("state_root", .num h.state_root),
   ("receipts_root", .num h.receipts_root),
   ("logs_bloom", .bytes h.logs_bloom),
   ("prev_randao", .num h.prev_randao),
   ("block_number", .num h.block_number),
   ("gas_limit", .num h.gas_limit),
   ("gas_used", .num h.gas_used),
   ("timestamp", .num h.timestamp),
   ("extra_data", .bytes h.extra_data),
   ("base_fee_per_gas", .num h.base_fee_per_gas),
   ("block_hash", .num h.block_hash),
   ("transactions_root", .num h.transactions_root)]

/-- Modelled from the spec: the `serde_json` deserialisation of lighthouse's
`ExecutionPayloadHeader`, the reverse leg of the §8 round-trip property. -/
def ExecutionPayloadHeader.fromJson (j : JsonObj) : Except Error ExecutionPayloadHeader := do
  let parent_hash ← jsonNum j ("parent_hash")
  let fee_recipient ← jsonNum j ("fee_recipient")
  let state_root ← jsonNum j ("state_root")
  let receipts_root ← jsonNum j ("receipts_root")
  let logs_bloom ← jsonBytes j ("logs_bloom")
  let prev_randao ← jsonNum j ("prev_randao")
  let block_number ← jsonNum j ("block_number")
  let gas_limit ← jsonNum j ("gas_limit")
  let gas_used ← jsonNum j ("gas_used")
  let timestamp ← jsonNum j ("timestamp")
  let extra_data ← jsonBytes j ("extra_data")
  let base_fee_per_gas ← jsonNum j ("base_fee_per_gas")
  let block_hash ← jsonNum j ("block_hash")
  let transactions_root ← jsonNum j ("transactions_root")
  pure { parent_hash, fee_recipient, state_root, receipts_root, logs_bloom,
         prev_randao, block_number, gas_limit, gas_used, timestamp, extra_data,
         base_fee_per_gas, block_hash, transactions_root }

/-- Schema B back to schema A through the text intermediate. -/
def translateHeaderBA (h : ServerPayloadHeader) : Except Error ExecutionPayloadHeader :=
  ExecutionPayloadHeader.fromJson h.toJson

/-- lighthouse `types::ExecutionPayload<E>` (merge variant), the full payload
`open_bid` recovers from the execution layer (mock_builder.rs:304-314): the
header's fields with the `transactions` list (a list of byte strings) in
place of `transactions_root`. -/
structure ExecutionPayload where
  parent_hash : Nat
  fee_recipient : Nat
  state_root : Nat
  receipts_root : Nat
  logs_bloom : List Nat
  prev_randao : Nat
  block_number : Nat
  gas_limit : Nat
  gas_used : Nat
  timestamp : Nat
  extra_data : List Nat
  base_fee_per_gas : Nat
  block_hash : Nat
  transactions : List (List Nat)
  deriving DecidableEq, Repr

/-- The `mev_build_rs::ExecutionPayload` type (the `ServerPayload` import,
mock_builder.rs:11), the bellatrix full payload of `ethereum-consensus`: the
same fourteen fields as the lighthouse full-payload schema. -/
structure ServerPayload where
  parent_hash : Nat
  fee_recipient : Nat
  state_root : Nat
  receipts_root : Nat
  logs_bloom : List Nat
  prev_randao : Nat
  block_number : Nat
  gas_limit : Nat
  gas_used : Nat
  timestamp : Nat
  extra_data : List Nat
  base_fee_per_gas : Nat
  block_hash : Nat
  transactions : List (List Nat)
  deriving DecidableEq, Repr

/-- Look up a transactions-list field of a JSON object. -/
def jsonTxs (j : JsonObj) (k : String) : Except Error (List (List Nat)) :=
  match List.lookup k j with
  | none => .error (.custom (.jsonFieldMissing k))
  | some (.txs ts) => .ok ts
  | some _ => .error (.custom (.jsonFieldShape k))

/-- Modelled from the spec: the `serde_json` serialisation of lighthouse's
full `ExecutionPayload` (its serde derive lives in `consensus/types`, outside
`src/`), the encoding leg of the `open_bid` translation
(mock_builder.rs:316).  Emits one key per schema field. -/
def ExecutionPayload.toJson (p : ExecutionPayload) : JsonObj :=
  [("parent_hash", .num p.parent_hash),
   ("fee_recipient", .num p.fee_recipient),
   ("state_root", .num p.state_root),
   ("receipts_root", .num p.receipts_root),
   ("logs_bloom", .bytes p.logs_bloom),
   ("prev_randao", .num p.prev_randao),
   ("block_number", .num p.block_number),
   ("gas_limit", .num p.gas_limit),
   ("gas_used", .num p.gas_used),
   ("timestamp", .num p.timestamp),
   ("extra_data", .bytes p.extra_data),
   ("base_fee_per_gas", .num p.base_fee_per_gas),
   ("block_hash", .num p.block_hash),
   ("transactions", .txs p.transactions)]

/-- Modelled from the spec: the `serde_json` deserialisation of
`ServerPayload` (its serde derive lives in the `ethereum-consensus` crate,
outside `src/`), the decoding leg of the `open_bid` translation
(mock_builder.rs:317). -/
def ServerPayload.fromJson (j : JsonObj) : Except Error ServerPayload := do
  let parent_hash ← jsonNum j ("parent_hash")
  let fee_recipient ← jsonNum j ("fee_recipient")
  let state_root ← jsonNum j ("state_root")
  let receipts_root ← jsonNum j ("receipts_root")
  let logs_bloom ← jsonBytes j ("logs_bloom")
  let prev_randao ← jsonNum j ("prev_randao")
  let block_number ← jsonNum j ("block_number")
  let gas_limit ← jsonNum j ("gas_limit")
  let gas_used ← jsonNum j ("gas_used")
  let timestamp ← jsonNum j ("timestamp")
  let extra_data ← jsonBytes j ("extra_data")
  let base_fee_per_gas ← jsonNum j ("base_fee_per_gas")
  let block_hash ← jsonNum j ("block_hash")
  let transactions ← jsonTxs j ("transactions")
  pure { parent_hash, fee_recipient, state_root, receipts_root, logs_bloom,
         prev_randao, block_number, gas_limit, gas_used, timestamp, extra_data,
         base_fee_per_gas, block_hash, transactions }

/-- Full-payload schema A to schema B: `serde_json::to_string` of the
lighthouse payload, `serde_json::from_str` into the server payload
(mock_builder.rs:316-317). -/
def translatePayloadAB (p : ExecutionPayload) : Except Error ServerPayload :=
  ServerPayload.fromJson p.toJson

/-- Modelled from the spec: the `serde_json` serialisation of
`ServerPayload`, the reverse leg of the §8 round-trip property for the
full-payload schema pair. -/
def ServerPayload.toJson (p : ServerPayload) : JsonObj :=
  [("parent_hash", .num p.parent_hash),
   ("fee_recipient", .num p.fee_recipient),
   ("state_root", .num p.state_root),
   ("receipts_root", .num p.receipts_root),
   ("logs_bloom", .bytes p.logs_bloom),
   ("prev_randao", .num p.prev_randao),
   ("block_number", .num p.block_number),
   ("gas_limit", .num p.gas_limit),
   ("gas_used", .num p.gas_used),
   ("timestamp", .num p.timestamp),
   ("extra_data", .bytes p.extra_data),
   ("base_fee_per_gas", .num p.base_fee_per_gas),
   ("block_hash", .num p.block_hash),
   ("transactions", .txs p.transactions)]

/-- Modelled from the spec: the `serde_json` deserialisation of lighthouse's
full `ExecutionPayload`, the reverse leg of the §8 round-trip property for
the full-payload schema pair. -/
def ExecutionPayload.fromJson (j : JsonObj) : Except Error ExecutionPayload := do
  let parent_hash ← jsonNum j ("parent_hash")
  let fee_recipient ← jsonNum j ("fee_recipient")
  let state_root ← jsonNum j ("state_root")
  let receipts_root ← jsonNum j ("receipts_root")
  let logs_bloom ← jsonBytes j ("logs_bloom")
  let prev_randao ← jsonNum j ("prev_randao")
  let block_number ← jsonNum j ("block_number")
  let gas_limit ← jsonNum j ("gas_limit")
  let gas_used ← jsonNum j ("gas_used")
  let timestamp ← jsonNum j ("timestamp")
  let extra_data ← jsonBytes j ("extra_data")
  let base_fee_per_gas ← jsonNum j ("base_fee_per_gas")
  let block_hash ← jsonNum j ("block_hash")
  let transactions ← jsonTxs j ("transactions")
  pure { parent_hash, fee_recipient, state_root, receipts_root, logs_bloom,
         prev_randao, block_number, gas_limit, gas_used, timestamp, extra_data,
         base_fee_per_gas, block_hash, transactions }

/-- Full-payload schema B back to schema A through the text intermediate. -/
def translatePayloadBA (p : ServerPayload) : Except Error ExecutionPayload :=
  ExecutionPayload.fromJson p.toJson

/-! ## The unblinder (`open_bid`)

`open_bid` (mock_builder.rs:300-318) hashes the blinded block's embedded
payload header, looks up the cached full payload by that root on the
execution layer, and translates it into the protocol's output schema through
the serde_json text intermediate. -/

/-- The body of a blinded beacon block: carries only the payload header. -/
structure BlindedBeaconBlockBody where
  execution_payload_header : ServerPayloadHeader
  deriving Repr

/-- A blinded beacon block. -/
structure BlindedBeaconBlock where
  body : BlindedBeaconBlockBody
  deriving Repr

/-- The `mev_build_rs::SignedBlindedBeaconBlock` type. -/
structure SignedBlindedBeaconBlock where
  message : BlindedBeaconBlock
  signature : Nat
  deriving Repr

/-- The collaborators `open_bid` consults: `hash_tree_root` of `ssz_rs`
(abstract Merkle hashing) and the execution layer's `get_payload_by_root`
cache. -/
structure UnblindEnv where
  hashTreeRoot : ServerPayloadHeader → Nat
  payloadByRoot : Nat → Option ExecutionPayload

/-- Model of `open_bid` (mock_builder.rs:300-318): hash the embedded header,
convert the 32-byte root across codecs (`from_ssz_rs`), fetch the cached full
payload by that root, and translate it via the serde_json bridge. -/
def open_bid (env : UnblindEnv) (signed_block : SignedBlindedBeaconBlock) :
    Except Error ServerPayload :=
  match sszRoundTrip 32
      (env.hashTreeRoot signed_block.message.body.execution_payload_header) with
  | .error e => .error e
  | .ok root =>
    match env.payloadByRoot root with
    | none => .error (.custom .missingPayloadForTxRoot)
    | some payload => translatePayloadAB payload

/-! ## BuilderBid and the operation queue -/

/-- The `mev_build_rs::BuilderBid`: header, 256-bit value, builder public key. -/
structure BuilderBid where
  header : ServerPayloadHeader
  value : Nat
  public_key : Nat
  deriving DecidableEq, Repr, Inhabited

/-- The `Operation` enum (mock_builder.rs:29): test-injected mutations.  `FeeRecipient`
carries a `types::Address` (20 bytes), the other two carry a `usize`; `Nat`
arguments stand for those machine values and are reduced where the code
converts them. -/
inductive Operation where
  | FeeRecipient (fee_recipient : Nat)
  | GasLimit (gas_limit : Nat)
  | Value (value : Nat)
  deriving DecidableEq, Repr

/-- Model of `Operation::apply` (mock_builder.rs:36): `FeeRecipient` and `Value` route
their argument through `to_ssz_rs` (an SSZ cross-codec round trip); `GasLimit`
is a plain `as u64` cast.  `Uint256::from` embeds the `usize` argument, hence
the `% 2 ^ 64`. -/
def Operation.apply : Operation → BuilderBid → Except Error BuilderBid
  | .FeeRecipient fee_recipient, bid =>
      (sszRoundTrip 20 fee_recipient).map fun fr =>
        { bid with header := { bid.header with fee_recipient := fr } }
  | .GasLimit gas_limit, bid =>
      .ok { bid with header := { bid.header with gas_limit := gas_limit % 2 ^ 64 } }
  | .Value value, bid =>
      (sszRoundTrip 32 (value % 2 ^ 64)).map fun v => { bid with value := v }

/-- The drain loop of `apply_operations` (mock_builder.rs:147-149) acting on
the queue with its tail first: `pop` the next entry, apply it, stop at the
first error (`?`).  Returns the entries never popped together with the
result. -/
def applyOpsRev : List Operation → BuilderBid → List Operation × Except Error BuilderBid
  | [], bid => ([], .ok bid)
  | op :: rest, bid =>
      match op.apply bid with
      | .ok bid2 => applyOpsRev rest bid2
      | .error e => (rest, .error e)

/-- Model of `apply_operations` (mock_builder.rs:145): the queue is a `Vec` in
insertion order; `pop` removes from the tail, so the loop consumes the
reversed queue.  Returns the queue left behind (in insertion order) and the
result. -/
def apply_operations (ops : List Operation) (bid : BuilderBid) :
    List Operation × Except Error BuilderBid :=
  let r := applyOpsRev ops.reverse bid
  (r.1.reverse, r.2)

/-! ## Registrations and the registration cache

`val_registration_cache` (mock_builder.rs:116) is a
`HashMap<BlsPublicKey, SignedValidatorRegistration>` behind a lock.  We model
the map as an association list where `insert` prepends and `lookup` takes the
first match — observably the overwrite-on-insert map of `HashMap`. -/

/-- A `ValidatorRegistration` (the `message` of a signed registration):
fee recipient (20-byte address), gas limit and timestamp (u64), and the
48-byte BLS public key. -/
structure ValidatorRegistration where
  fee_recipient : Nat
  gas_limit : Nat
  timestamp : Nat
  public_key : Nat
  deriving DecidableEq, Repr

/-- The `mev_build_rs::SignedValidatorRegistration` type. -/
structure SignedValidatorRegistration where
  message : ValidatorRegistration
  signature : Nat
  deriving DecidableEq, Repr

/-- The registration cache contents. -/
def RegistrationCache : Type := List (Nat × SignedValidatorRegistration)

/-- Model of `HashMap::insert` (mock_builder.rs:169). -/
def cacheInsert (k : Nat) (v : SignedValidatorRegistration) (c : RegistrationCache) :
    RegistrationCache :=
  (k, v) :: c

/-- Model of `HashMap::get` (mock_builder.rs:186). -/
def cacheLookup (c : RegistrationCache) (k : Nat) : Option SignedValidatorRegistration :=
  List.lookup k c

/-- The `ethereum_consensus::state_transition::Context`, as the mock populates it
(mock_builder.rs:77-85): three terminal-transition fields, rest default. -/
structure Context where
  terminal_total_difficulty : Nat
  terminal_block_hash : Nat
  terminal_block_hash_activation_epoch : Nat
  deriving DecidableEq, Repr

/-- Model of `register_validator` (mock_builder.rs:156-176): walk the batch in order;
for each entry verify its signature over its own embedded public key under
the builder's `Context` (the external `verify_signed_builder_message`, an
abstract crypto predicate here), propagating the first failure with `?`, and
otherwise insert the entry into the cache keyed by its public key. -/
def register_validator
    (verify : ValidatorRegistration → Nat → Nat → Context → Bool) (ctx : Context) :
    RegistrationCache → List SignedValidatorRegistration →
      RegistrationCache × Except Error Unit
  | cache, [] => (cache, .ok ())
  | cache, registration :: rest =>
      let pubkey := registration.message.public_key
      if verify registration.message registration.signature pubkey ctx then
        register_validator verify ctx
          (cacheInsert registration.message.public_key registration cache) rest
      else
        (cache, .error (.custom .signatureInvalid))

/-! ## The bid-construction environment

`fetch_best_bid` consults two collaborators: the beacon client (head block,
finalized block, validator index, genesis, head state) and the execution
layer (`insert_proposer`, `get_full_payload_caching`).  The environment below
carries the data those collaborators would answer with (`none` = the
collaborator answers "not found"); the call sequence is recorded as a list of
effects.  Transport-level client failures are not modelled: they would only
add further error exits and no claim depends on them. -/

/-- The `PayloadAttributes` record (mock_builder.rs:256-260). -/
structure PayloadAttributes where
  timestamp : Nat
  prev_randao : Nat
  suggested_fee_recipient : Nat
  deriving DecidableEq, Repr

/-- One observable collaborator call made during `fetch_best_bid`, in order. -/
inductive Effect where
  | getHeadBlock
  | getFinalizedBlock
  | getStateValidatorId
  | getGenesis
  | getHeadState
  | insertProposer (slot : Nat) (head_block_root : Nat) (val_index : Nat)
      (attrs : PayloadAttributes)
  | getFullPayloadCaching (head_hash timestamp prev_randao finalized_hash
      fee_recipient : Nat)
  deriving DecidableEq, Repr

/-- The merge head block data `fetch_best_bid` extracts
(mock_builder.rs:198-200). -/
structure HeadBlockInfo where
  tree_hash_root : Nat
  execution_block_hash : Nat
  deriving DecidableEq, Repr

/-- The subset of `types::ChainSpec` the mock reads. -/
structure ChainSpec where
  genesis_slot : Nat
  seconds_per_slot : Nat
  deriving DecidableEq, Repr

/-- A `MockBuilder` together with the answers its collaborators would give. -/
structure Env where
  spec : ChainSpec
  context : Context
  cache : RegistrationCache
  queue : List Operation
  builder_pk : Nat
  /-- Abstract crypto: `sign_builder_message` with the builder's secret key. -/
  sign : BuilderBid → Nat
  headBlock : Option HeadBlockInfo
  finalizedBlock : Option Nat
  validatorIndex : Nat → Option Nat
  genesisTime : Nat
  /-- Head state: `none` = state missing; `some none` = `get_randao_mix`
  fails; `some (some r)` = previous randao mix `r`. -/
  headState : Option (Option Nat)
  elPayload : Nat → Nat → Nat → Nat → Nat → Option ExecutionPayloadHeader

/-- Reduction to a u64 value. -/
def wrap64 (a : Nat) : Nat := a % 2 ^ 64

/-- Wrapping u64 subtraction (`a - b` on `u64`, release semantics). -/
def u64_sub (a b : Nat) : Nat := (wrap64 a + 2 ^ 64 - wrap64 b) % 2 ^ 64

/-- Wrapping u64 multiplication. -/
def u64_mul (a b : Nat) : Nat := wrap64 a * wrap64 b % 2 ^ 64

/-- Wrapping u64 addition. -/
def u64_add (a b : Nat) : Nat := (wrap64 a + wrap64 b) % 2 ^ 64

/-- The `mev_build_rs::BidRequest`: slot (u64), 32-byte parent hash, 48-byte
proposer public key. -/
structure BidRequest where
  slot : Nat
  parent_hash : Nat
  public_key : Nat
  deriving DecidableEq, Repr

/-- The `mev_build_rs::SignedBuilderBid` type. -/
structure SignedBuilderBid where
  message : BuilderBid
  signature : Nat
  deriving DecidableEq, Repr, Inhabited

/-- Model of `fetch_best_bid` (mock_builder.rs:178-298), returning the collaborator
calls made (in order) and the result.  Control flow mirrors the source:
registration lookup; head block query and parent-hash check; finalized block
query; validator-index query; genesis query and timestamp computation (the
slot subtraction at mock_builder.rs:234 is unguarded u64 arithmetic); head
state query for the randao mix; `insert_proposer`;
`get_full_payload_caching`; the serde_json schema translation; the gas-limit
override from the registration; the operation drain; signing. -/
def fetch_best_bid (env : Env) (bid_request : BidRequest) :
    List Effect × Except Error SignedBuilderBid :=
  let slot := bid_request.slot
  match cacheLookup env.cache bid_request.public_key with
  | none => ([], .error (.custom .missingRegistration))
  | some signed_cached_data =>
    let cached_data := signed_cached_data.message
    match env.headBlock with
    | none => ([.getHeadBlock], .error (.custom .missingHeadBlock))
    | some head =>
      let head_block_root := head.tree_hash_root
      let head_execution_hash := head.execution_block_hash
      match sszRoundTrip 32 bid_request.parent_hash with
      | .error e => ([.getHeadBlock], .error e)
      | .ok parent_hash =>
        if head_execution_hash ≠ parent_hash then
          ([.getHeadBlock],
           .error (.custom (.headMismatch head_execution_hash bid_request.parent_hash)))
        else
          match env.finalizedBlock with
          | none => ([.getHeadBlock, .getFinalizedBlock],
                     .error (.custom .missingFinalizedBlock))
          | some finalized_execution_hash =>
            match sszRoundTrip 48 cached_data.public_key with
            | .error e => ([.getHeadBlock, .getFinalizedBlock], .error e)
            | .ok pk =>
              match env.validatorIndex pk with
              | none => ([.getHeadBlock, .getFinalizedBlock, .getStateValidatorId],
                         .error (.custom .missingValidatorFromState))
              | some val_index =>
                match sszRoundTrip 20 cached_data.fee_recipient with
                | .error e =>
                    ([.getHeadBlock, .getFinalizedBlock, .getStateValidatorId], .error e)
                | .ok fee_recipient =>
                  let slots_since_genesis := u64_sub slot env.spec.genesis_slot
                  let genesis_time := env.genesisTime
                  let timestamp :=
                    u64_add (u64_mul slots_since_genesis env.spec.seconds_per_slot)
                      genesis_time
                  match env.headState with
                  | none =>
                      ([.getHeadBlock, .getFinalizedBlock, .getStateValidatorId,
                        .getGenesis, .getHeadState],
                       .error (.custom .missingHeadState))
                  | some none =>
                      ([.getHeadBlock, .getFinalizedBlock, .getStateValidatorId,
                        .getGenesis, .getHeadState],
                       .error (.custom .missingRandaoMix))
                  | some (some prev_randao) =>
                    let payload_attributes : PayloadAttributes :=
                      { timestamp, prev_randao, suggested_fee_recipient := fee_recipient }
                    let effs :=
                      [.getHeadBlock, .getFinalizedBlock, .getStateValidatorId,
                       .getGenesis, .getHeadState,
                       .insertProposer slot head_block_root val_index payload_attributes,
                       Effect.getFullPayloadCaching head_execution_hash timestamp
                         prev_randao finalized_execution_hash fee_recipient]
                    match env.elPayload head_execution_hash timestamp prev_randao
                        finalized_execution_hash fee_recipient with
                    | none => (effs, .error (.custom .missingElPayload))
                    | some payload =>
                      match translateHeaderAB payload with
                      | .error e => (effs, .error e)
                      | .ok header0 =>
                        let header := { header0 with gas_limit := cached_data.gas_limit }
                        let message0 : BuilderBid :=
                          { header, value := 0, public_key := env.builder_pk }
                        match (apply_operations env.queue message0).2 with
                        | .error e => (effs, .error e)
                        | .ok message =>
                          (effs, .ok { message, signature := env.sign message })

/-- The 20-byte address 0xAA…AA used in the spec's operation-ordering
example. -/
def addrAA : Nat := 0xAAAAAAAAAAAAAAAAAAAAAAAAAAAAAAAAAAAAAAAA

/-- A signature scheme for witnesses: a signature is valid when it is `1`. -/
def verifySig1 : ValidatorRegistration → Nat → Nat → Context → Bool :=
  fun _ sig _ _ => sig == 1

/-- A default context for witnesses. -/
def ctx0 : Context := { terminal_total_difficulty := 0, terminal_block_hash := 0,
                        terminal_block_hash_activation_epoch := 0 }

/-- Registration of public key 1, gas limit 100, valid signature. -/
def regA : SignedValidatorRegistration :=
  { message := { fee_recipient := 0, gas_limit := 100, timestamp := 0,
                 public_key := 1 },
    signature := 1 }

/-- A second registration of public key 1 (gas limit 300), valid signature. -/
def regA2 : SignedValidatorRegistration :=
  { message := { fee_recipient := 0, gas_limit := 300, timestamp := 0,
                 public_key := 1 },
    signature := 1 }

/-- Registration of public key 2 with an invalid signature. -/
def regBad : SignedValidatorRegistration :=
  { message := { fee_recipient := 0, gas_limit := 0, timestamp := 0,
                 public_key := 2 },
    signature := 0 }

/-- Registration of public key 3, valid signature. -/
def regB : SignedValidatorRegistration :=
  { message := { fee_recipient := 0, gas_limit := 200, timestamp := 0,
                 public_key := 3 },
    signature := 1 }

/-! ### Concrete environments for witnesses and the counterexample -/

/-- A head-state bid environment whose collaborators answer nothing. -/
def envEmpty : Env :=
  { spec := { genesis_slot := 0, seconds_per_slot := 12 },
    context := ctx0, cache := [], queue := [], builder_pk := 0,
    sign := fun _ => 0, headBlock := none, finalizedBlock := none,
    validatorIndex := fun _ => none, genesisTime := 0, headState := none,
    elPayload := fun _ _ _ _ _ => none }

/-- A cached registration for public key 7 declaring gas limit 10000. -/
def regCex : SignedValidatorRegistration :=
  { message := { fee_recipient := 3, gas_limit := 10000, timestamp := 0,
                 public_key := 7 },
    signature := 1 }

/-- A head block whose execution hash is 5. -/
def headCex : HeadBlockInfo := { tree_hash_root := 11, execution_block_hash := 5 }

/-- The execution-layer payload: note its gas limit is 5000, the
execution-layer default the registration is meant to override. -/
def payloadEl : ExecutionPayloadHeader :=
  { parent_hash := 0, fee_recipient := 0, state_root := 0, receipts_root := 0,
    logs_bloom := [], prev_randao := 0, block_number := 0, gas_limit := 5000,
    gas_used := 0, timestamp := 0, extra_data := [], base_fee_per_gas := 0,
    block_hash := 0, transactions_root := 0 }

/-- An environment in which every collaborator answers, so that
`fetch_best_bid` succeeds; the operation queue is empty. -/
def envOk : Env :=
  { spec := { genesis_slot := 0, seconds_per_slot := 12 },
    context := ctx0,
    cache := [(7, regCex)],
    queue := [],
    builder_pk := 2,
    sign := fun _ => 0,
    headBlock := some headCex,
    finalizedBlock := some 4,
    validatorIndex := fun _ => some 9,
    genesisTime := 1000,
    headState := some (some 12),
    elPayload := fun _ _ _ _ _ => some payloadEl }

/-- A bid request matching `envOk`'s head (parent hash 5), for key 7. -/
def reqOk : BidRequest := { slot := 1, parent_hash := 5, public_key := 7 }

/-- Environment `envOk` with a queued `GasLimit 20000` test mutation. -/
def envGasOp : Env := { envOk with queue := [Operation.GasLimit 20000] }

/-- A request whose parent hash (6) disagrees with the head execution hash
(5) of `envOk`. -/
def reqMismatch : BidRequest := { slot := 1, parent_hash := 6, public_key := 7 }

/-- The bid `fetch_best_bid` returns in `envOk` for `reqOk` (the call
succeeds, so the error arm is never taken). -/
def sbOk : SignedBuilderBid :=
  match (fetch_best_bid envOk reqOk).2 with
  | .ok sb => sb
  | .error _ => default

/-- Environment `envOk` with a genesis slot (5) above the requested slot. -/
def envUnderflow : Env :=
  { envOk with spec := { genesis_slot := 5, seconds_per_slot := 1 },
               genesisTime := 0 }

/-- A request for slot 0, below `envUnderflow`'s genesis slot 5. -/
def reqUnderflow : BidRequest := { slot := 0, parent_hash := 5, public_key := 7 }

/-- The bid `fetch_best_bid` returns in `envUnderflow` for `reqUnderflow`
(the call succeeds despite the slot underflow). -/
def sbUnderflow : SignedBuilderBid :=
  match (fetch_best_bid envUnderflow reqUnderflow).2 with
  | .ok sb => sb
  | .error _ => default

theorem natToBytesLE_length (w v : Nat) : (natToBytesLE w v).length = w := by
  induction w generalizing v with
  | zero => rfl
  | succ w ih => simp [natToBytesLE, ih]

theorem bytesToNatLE_natToBytesLE (w v : Nat) :
    bytesToNatLE (natToBytesLE w v) = v % 256 ^ w := by
  induction w generalizing v with
  | zero => simp [natToBytesLE, bytesToNatLE, Nat.mod_one]
  | succ w ih =>
      simp only [natToBytesLE, bytesToNatLE, ih]
      rw [pow_succ', Nat.mod_mul]

/-- The cross-codec round trip on a `w`-byte fixed-width value always succeeds
and yields the value reduced modulo `256 ^ w`. -/
theorem sszRoundTrip_eq (w v : Nat) :
    sszRoundTrip w v = .ok (v % 256 ^ w) := by
  simp [sszRoundTrip, decodeFixed, natToBytesLE_length, bytesToNatLE_natToBytesLE]

/-- Translating a lighthouse header into the server schema always succeeds and
is the evident field-for-field copy. -/
theorem translateHeaderAB_eq (h : ExecutionPayloadHeader) :
    translateHeaderAB h =
      .ok { parent_hash := h.parent_hash, fee_recipient := h.fee_recipient,
            state_root := h.state_root, receipts_root := h.receipts_root,
            logs_bloom := h.logs_bloom, prev_randao := h.prev_randao,
            block_number := h.block_number, gas_limit := h.gas_limit,
            gas_used := h.gas_used, timestamp := h.timestamp,
            extra_data := h.extra_data, base_fee_per_gas := h.base_fee_per_gas,
            block_hash := h.block_hash,
            transactions_root := h.transactions_root } := by
  rfl

/-- Applying any operation succeeds (both SSZ round trips are total). -/
theorem Operation.apply_isOk (op : Operation) (bid : BuilderBid) :
    ∃ bid2, op.apply bid = .ok bid2 := by
  cases op <;> simp [Operation.apply, sszRoundTrip_eq, Except.map]

theorem applyOpsRev_fst (l : List Operation) (bid : BuilderBid) :
    (applyOpsRev l bid).1 = [] := by
  induction l generalizing bid with
  | nil => rfl
  | cons op rest ih =>
      obtain ⟨bid2, h⟩ := op.apply_isOk bid
      simp [applyOpsRev, h, ih]

theorem applyOpsRev_snd (l : List Operation) (bid : BuilderBid) :
    (applyOpsRev l bid).2 =
      l.foldl (fun r op => r.bind op.apply) (.ok bid) := by
  induction l generalizing bid with
  | nil => rfl
  | cons op rest ih =>
      obtain ⟨bid2, h⟩ := op.apply_isOk bid
      simp [applyOpsRev, h, ih, Except.bind]

theorem applyOpsRev_isOk (l : List Operation) (bid : BuilderBid) :
    ∃ bid2, (applyOpsRev l bid).2 = .ok bid2 := by
  induction l generalizing bid with
  | nil => exact ⟨bid, rfl⟩
  | cons op rest ih =>
      obtain ⟨bid2, h⟩ := op.apply_isOk bid
      simpa [applyOpsRev, h] using ih bid2

/-! ## Claim theorems: operation queue -/

/-- C1: every call to `apply_operations` on a bid leaves the operation queue
empty when it returns.  In this code applying an operation in fact never
fails (both SSZ round trips in `Operation::apply` are total on their
fixed-width inputs), so the drain loop always runs the queue down to empty
and the call succeeds; no entry is ever retained for a later call. -/
theorem apply_operations_drains_queue (ops : List Operation) (bid : BuilderBid) :
    (apply_operations ops bid).1 = [] ∧
      ∃ b, (apply_operations ops bid).2 = .ok b := by
  refine ⟨?_, ?_⟩
  · simp [apply_operations, applyOpsRev_fst]
  · simpa [apply_operations] using applyOpsRev_isOk ops.reverse bid

/-- C5: `apply_operations` pops the tail-most entry first, so queued
operations are applied in the reverse of insertion order (the `foldr` below
applies the last-added operation innermost, i.e. first); concretely, after
`add(GasLimit 30000000)` then `add(FeeRecipient 0xAA…AA)` a call applies
`FeeRecipient` first, the resulting bid carries `fee_recipient = 0xAA…AA` and
`gas_limit = 30000000`, and the queue is empty afterwards. -/
theorem apply_operations_reverse_insertion_order :
    (∀ (ops : List Operation) (bid : BuilderBid),
        (apply_operations ops bid).2 =
          ops.foldr (fun op r => r.bind op.apply) (.ok bid)) ∧
    (∀ bid : BuilderBid,
        (apply_operations [.GasLimit 30000000, .FeeRecipient addrAA] bid).1 = [] ∧
        (apply_operations [.GasLimit 30000000, .FeeRecipient addrAA] bid).2 =
          .ok { bid with header :=
                  { bid.header with fee_recipient := addrAA,
                                    gas_limit := 30000000 } }) := by
  refine ⟨fun ops bid => ?_, fun bid => ⟨?_, ?_⟩⟩
  · rw [apply_operations, applyOpsRev_snd, List.foldl_reverse]
  · simp [apply_operations, applyOpsRev_fst]
  · have h20 : addrAA % 256 ^ 20 = addrAA := Nat.mod_eq_of_lt (by norm_num [addrAA])
    have h64 : 30000000 % 2 ^ 64 = 30000000 := Nat.mod_eq_of_lt (by norm_num)
    simp [apply_operations, applyOpsRev, Operation.apply, sszRoundTrip_eq,
      Except.map, h20, h64]
    norm_num [addrAA]

/-! ## Claim theorems: codec bridge -/

/-- C3: for every well-formed payload value representable in both codec
schemas, translating it from one schema to the other through the
structured-text intermediate and back reconstructs the original value on
every field shared by the two schemas — for both translation sites of the
source: the header pair used by `fetch_best_bid` (mock_builder.rs:279-281)
and the full-payload pair used by `open_bid` (mock_builder.rs:316-317).
Each pair shares all of its fields, so both round trips are the identity
(and succeed); no field is dropped or defaulted. -/
theorem codec_bridge_roundtrip :
    (∀ h : ExecutionPayloadHeader,
        (translateHeaderAB h).bind translateHeaderBA = .ok h) ∧
    (∀ p : ExecutionPayload,
        (translatePayloadAB p).bind translatePayloadBA = .ok p) := by
  constructor
  · intro h
    cases h
    rfl
  · intro p
    cases p
    rfl

/-! ## Claim theorems: registration cache -/

theorem cacheLookup_insert (k : Nat) (v : SignedValidatorRegistration)
    (c : RegistrationCache) (k2 : Nat) :
    cacheLookup (cacheInsert k v c) k2 =
      if k2 = k then some v else cacheLookup c k2 := by
  by_cases h : k2 = k
  · simp [cacheLookup, cacheInsert, List.lookup, h]
  · have hb : (k2 == k) = false := beq_eq_false_iff_ne.mpr h
    simp [cacheLookup, cacheInsert, List.lookup, h, hb]

/-- C8: the registration cache is keyed by public key with last-write-wins
semantics — registering the same key twice, in one batch or across two calls,
leaves the second registration as the one `lookup` returns — and a key once
present is never deleted by any later `register_validator` call (no other
code path touches the cache). -/
theorem registration_cache_last_write_wins
    (verify : ValidatorRegistration → Nat → Nat → Context → Bool) (ctx : Context) :
    (∀ (c : RegistrationCache) (r1 r2 : SignedValidatorRegistration),
        r1.message.public_key = r2.message.public_key →
        verify r1.message r1.signature r1.message.public_key ctx = true →
        verify r2.message r2.signature r2.message.public_key ctx = true →
        cacheLookup (register_validator verify ctx c [r1, r2]).1
            r2.message.public_key = some r2 ∧
        cacheLookup
            (register_validator verify ctx
              (register_validator verify ctx c [r1]).1 [r2]).1
            r2.message.public_key = some r2) ∧
    (∀ (c : RegistrationCache) (batch : List SignedValidatorRegistration)
        (k : Nat) (v : SignedValidatorRegistration),
        cacheLookup c k = some v →
        ∃ v2, cacheLookup (register_validator verify ctx c batch).1 k = some v2) := by
  constructor
  · intro c r1 r2 hk h1 h2
    constructor
    · simp [register_validator, h1, h2, cacheLookup_insert]
    · simp [register_validator, h1, h2, cacheLookup_insert]
  · intro c batch k v hkv
    induction batch generalizing c v with
    | nil => exact ⟨v, hkv⟩
    | cons r rest ih =>
        by_cases hr : verify r.message r.signature r.message.public_key ctx = true
        · simp only [register_validator, hr, if_true]
          by_cases hkk : k = r.message.public_key
          · exact ih _ r (by simp [cacheLookup_insert, hkk])
          · exact ih _ v (by simp [cacheLookup_insert, hkk, hkv])
        · exact ⟨v, by simp [register_validator, hr, hkv]⟩

/-- C4: `register_validator` walks the batch in order verifying each entry's
signature against its embedded public key and the builder context; the first
failure aborts the call with a signature error, but entries processed before
the failing one stay committed: for a batch `[valid1, invalid, valid2]` the
call errors, `lookup valid1.public_key` succeeds and
`lookup valid2.public_key` is absent. -/
theorem register_validator_not_atomic
    (verify : ValidatorRegistration → Nat → Nat → Context → Bool) (ctx : Context)
    (c : RegistrationCache) (v1 bad v2 : SignedValidatorRegistration)
    (h1 : verify v1.message v1.signature v1.message.public_key ctx = true)
    (hbad : verify bad.message bad.signature bad.message.public_key ctx = false)
    (hk : v2.message.public_key ≠ v1.message.public_key)
    (hc : cacheLookup c v2.message.public_key = none) :
    (register_validator verify ctx c [v1, bad, v2]).2 =
        .error (.custom .signatureInvalid) ∧
    cacheLookup (register_validator verify ctx c [v1, bad, v2]).1
        v1.message.public_key = some v1 ∧
    cacheLookup (register_validator verify ctx c [v1, bad, v2]).1
        v2.message.public_key = none := by
  refine ⟨?_, ?_, ?_⟩ <;>
    simp [register_validator, h1, hbad, cacheLookup_insert, hk, hc]

theorem register_validator_not_atomic_witness :
    (register_validator verifySig1 ctx0 [] [regA, regBad, regB]).2 =
        .error (.custom .signatureInvalid) ∧
    cacheLookup (register_validator verifySig1 ctx0 [] [regA, regBad, regB]).1
        regA.message.public_key = some regA ∧
    cacheLookup (register_validator verifySig1 ctx0 [] [regA, regBad, regB]).1
        regB.message.public_key = none :=
  register_validator_not_atomic verifySig1 ctx0 [] regA regBad regB
    rfl rfl (by decide) rfl

theorem registration_cache_last_write_wins_witness :
    (cacheLookup (register_validator verifySig1 ctx0 [] [regA, regA2]).1
        regA2.message.public_key = some regA2 ∧
     cacheLookup
        (register_validator verifySig1 ctx0
          (register_validator verifySig1 ctx0 [] [regA]).1 [regA2]).1
        regA2.message.public_key = some regA2) ∧
    ∃ v2, cacheLookup
        (register_validator verifySig1 ctx0 [(3, regB)] [regA, regA2]).1 3 = some v2 :=
  ⟨(registration_cache_last_write_wins verifySig1 ctx0).1 [] regA regA2 rfl rfl rfl,
   (registration_cache_last_write_wins verifySig1 ctx0).2 [(3, regB)] [regA, regA2]
     3 regB rfl⟩

/-! ## Claim theorems: bid construction -/

/-- C7: when the requesting public key has no entry in the registration
cache, `fetch_best_bid` fails with the missing-registration error and the
effect trace is empty: no chain-state or execution-layer collaborator call is
made. -/
theorem fetch_best_bid_missing_registration
    (env : Env) (req : BidRequest)
    (h : cacheLookup env.cache req.public_key = none) :
    fetch_best_bid env req = ([], .error (.custom .missingRegistration)) := by
  simp [fetch_best_bid, h]

/-- C6: when the head block's execution hash differs from the request's
parent hash, `fetch_best_bid` fails with the head-mismatch error carrying
both hashes (expected = head hash, got = parent hash), its effect trace is
the head query alone, and in particular `insert_proposer` is never called. -/
theorem fetch_best_bid_head_mismatch
    (env : Env) (req : BidRequest) (r : SignedValidatorRegistration)
    (head : HeadBlockInfo)
    (hc : cacheLookup env.cache req.public_key = some r)
    (hh : env.headBlock = some head)
    (hm : head.execution_block_hash ≠ req.parent_hash % 2 ^ 256) :
    fetch_best_bid env req =
      ([.getHeadBlock],
       .error (.custom
         (.headMismatch head.execution_block_hash req.parent_hash))) ∧
    ∀ (s root vi : Nat) (attrs : PayloadAttributes),
        Effect.insertProposer s root vi attrs ∉ (fetch_best_bid env req).1 := by
  have hm2 := hm
  norm_num at hm2
  have h1 : fetch_best_bid env req =
      ([.getHeadBlock],
       .error (.custom
         (.headMismatch head.execution_block_hash req.parent_hash))) := by
    simp [fetch_best_bid, hc, hh, sszRoundTrip_eq]
    intro heq
    exact absurd heq hm2
  refine ⟨h1, fun s root vi attrs => ?_⟩
  rw [h1]
  simp

theorem fetch_best_bid_missing_registration_witness :
    cacheLookup envEmpty.cache 7 = none ∧
    fetch_best_bid envEmpty { slot := 1, parent_hash := 5, public_key := 7 } =
      ([], .error (.custom .missingRegistration)) :=
  ⟨rfl, fetch_best_bid_missing_registration envEmpty
    { slot := 1, parent_hash := 5, public_key := 7 } rfl⟩

theorem fetch_best_bid_head_mismatch_witness :
    (cacheLookup envOk.cache reqMismatch.public_key = some regCex ∧
     envOk.headBlock = some headCex ∧
     headCex.execution_block_hash ≠ reqMismatch.parent_hash % 2 ^ 256) ∧
    fetch_best_bid envOk reqMismatch =
      ([.getHeadBlock],
       .error (.custom (.headMismatch headCex.execution_block_hash
         reqMismatch.parent_hash))) ∧
    ∀ (s root vi : Nat) (attrs : PayloadAttributes),
        Effect.insertProposer s root vi attrs ∉ (fetch_best_bid envOk reqMismatch).1 :=
  ⟨⟨rfl, rfl, by decide⟩,
   fetch_best_bid_head_mismatch envOk reqMismatch regCex headCex rfl rfl (by decide)⟩

/-! ### Helper lemmas for the success path -/

theorem applyOpsRev_gas_limit :
    ∀ (l : List Operation) (bid b : BuilderBid),
      (∀ g, Operation.GasLimit g ∉ l) →
      (applyOpsRev l bid).2 = .ok b →
      b.header.gas_limit = bid.header.gas_limit := by
  intro l
  induction l with
  | nil =>
      intro bid b hq hb
      simp [applyOpsRev] at hb
      rw [hb]
  | cons op rest ih =>
      intro bid b hq hb
      have hqr : ∀ g, Operation.GasLimit g ∉ rest :=
        fun g hg => hq g (List.mem_cons_of_mem _ hg)
      cases op with
      | FeeRecipient a =>
          simp only [applyOpsRev, Operation.apply, sszRoundTrip_eq, Except.map] at hb
          have hg := ih _ b hqr hb
          exact hg
      | GasLimit g =>
          exact absurd (List.mem_cons_self _ _) (hq g)
      | Value v =>
          simp only [applyOpsRev, Operation.apply, sszRoundTrip_eq, Except.map] at hb
          have hg := ih _ b hqr hb
          exact hg

theorem apply_operations_gas_limit (ops : List Operation) (bid b : BuilderBid)
    (hq : ∀ g, Operation.GasLimit g ∉ ops)
    (hb : (apply_operations ops bid).2 = .ok b) :
    b.header.gas_limit = bid.header.gas_limit :=
  applyOpsRev_gas_limit ops.reverse bid b
    (fun g hg => hq g (List.mem_reverse.mp hg))
    (by simpa [apply_operations] using hb)

theorem timestamp_formula (slot gs sps gt : Nat)
    (hslot : slot < 2 ^ 64) (hgs : gs ≤ slot) (hsps : sps < 2 ^ 64)
    (hov : (slot - gs) * sps + gt < 2 ^ 64) :
    u64_add (u64_mul (u64_sub slot gs) sps) gt = gt + (slot - gs) * sps := by
  have hgs64 : gs < 2 ^ 64 := lt_of_le_of_lt hgs hslot
  have hp : (slot - gs) * sps < 2 ^ 64 := lt_of_le_of_lt (Nat.le_add_right _ _) hov
  have hgt : gt < 2 ^ 64 := lt_of_le_of_lt (Nat.le_add_left _ _) hov
  unfold u64_add u64_mul u64_sub wrap64
  rw [Nat.mod_eq_of_lt hslot, Nat.mod_eq_of_lt hgs64]
  have h3 : slot + 2 ^ 64 - gs = slot - gs + 2 ^ 64 := by omega
  rw [h3, Nat.add_mod_right, Nat.mod_eq_of_lt (by omega : slot - gs < 2 ^ 64),
      Nat.mod_eq_of_lt (by omega : slot - gs < 2 ^ 64), Nat.mod_eq_of_lt hsps,
      Nat.mod_eq_of_lt hp, Nat.mod_eq_of_lt hp, Nat.mod_eq_of_lt hgt,
      Nat.mod_eq_of_lt hov, Nat.add_comm]

theorem u64_sub_underflow (slot gs : Nat) (hlt : slot < gs) (hgs : gs < 2 ^ 64) :
    u64_sub slot gs = 2 ^ 64 - (gs - slot) := by
  unfold u64_sub wrap64
  rw [Nat.mod_eq_of_lt (lt_trans hlt hgs), Nat.mod_eq_of_lt hgs]
  have h1 : slot + 2 ^ 64 - gs = 2 ^ 64 - (gs - slot) := by omega
  rw [h1, Nat.mod_eq_of_lt (by omega)]

/-! ### C2: the gas-limit override -/

/-- C2, counterexample: the claim "for every successful `fetch_best_bid` call
the signed bid's header gas limit equals the cached registration's declared
gas limit" fails as stated, because the override at mock_builder.rs:283 runs
BEFORE the queued operations are applied (mock_builder.rs:291): with
registration gas limit 10000 and a queued `GasLimit 20000` operation the call
succeeds and returns a header gas limit of 20000. -/
theorem fetch_best_bid_gas_limit_counterexample :
    ((fetch_best_bid envGasOp reqOk).2.map fun sb => sb.message.header.gas_limit) =
        .ok 20000 ∧
    cacheLookup envGasOp.cache reqOk.public_key = some regCex ∧
    regCex.message.gas_limit = 10000 ∧
    (20000 : Nat) ≠ 10000 := by
  refine ⟨?_, rfl, rfl, by decide⟩
  rfl

/-- C2, amended: for every successful `fetch_best_bid` call made while the
operation queue holds no `GasLimit` operation, the returned signed bid's
header gas limit equals the gas limit declared in the cached registration for
the requesting public key (the registration overrides the execution-layer
default, even when the two differ). -/
theorem fetch_best_bid_gas_limit_override
    (env : Env) (req : BidRequest) (r : SignedValidatorRegistration)
    (sb : SignedBuilderBid)
    (hc : cacheLookup env.cache req.public_key = some r)
    (hq : ∀ g, Operation.GasLimit g ∉ env.queue)
    (hs : (fetch_best_bid env req).2 = .ok sb) :
    sb.message.header.gas_limit = r.message.gas_limit := by
  simp only [fetch_best_bid, hc] at hs
  repeat' split at hs
  all_goals try exact Except.noConfusion hs
  rename_i happly
  cases hs
  exact (apply_operations_gas_limit env.queue _ _ hq happly).trans rfl

theorem fetch_best_bid_gas_limit_override_witness :
    cacheLookup envOk.cache reqOk.public_key = some regCex ∧
    (∀ g, Operation.GasLimit g ∉ envOk.queue) ∧
    (fetch_best_bid envOk reqOk).2 = .ok sbOk ∧
    sbOk.message.header.gas_limit = regCex.message.gas_limit :=
  ⟨rfl, fun g => by simp [envOk], rfl,
   fetch_best_bid_gas_limit_override envOk reqOk regCex sbOk rfl
     (fun g => by simp [envOk]) rfl⟩

/-- C9: in every successful `fetch_best_bid` call (with genuine u64 inputs,
the slot at or past the genesis slot, and the arithmetic not overflowing
u64), the timestamp handed to the execution layer in the payload attributes
equals `genesis_time + (slot - genesis_slot) * seconds_per_slot`, with slot
from the request, genesis time from the genesis query and the two constants
from the chain specification. -/
theorem fetch_best_bid_timestamp
    (env : Env) (req : BidRequest) (sb : SignedBuilderBid)
    (hs : (fetch_best_bid env req).2 = .ok sb)
    (hslot : req.slot < 2 ^ 64)
    (hgs : env.spec.genesis_slot ≤ req.slot)
    (hsps : env.spec.seconds_per_slot < 2 ^ 64)
    (hov : (req.slot - env.spec.genesis_slot) * env.spec.seconds_per_slot
            + env.genesisTime < 2 ^ 64) :
    ∃ (root vi : Nat) (attrs : PayloadAttributes),
      Effect.insertProposer req.slot root vi attrs ∈ (fetch_best_bid env req).1 ∧
      attrs.timestamp =
        env.genesisTime +
          (req.slot - env.spec.genesis_slot) * env.spec.seconds_per_slot := by
  have hts := timestamp_formula req.slot env.spec.genesis_slot
    env.spec.seconds_per_slot env.genesisTime hslot hgs hsps hov
  rcases hF : fetch_best_bid env req with ⟨effects, res⟩
  have hs2 : res = .ok sb := by rw [hF] at hs; exact hs
  simp only [fetch_best_bid] at hF
  repeat' split at hF
  all_goals (injection hF with hEff hRes)
  all_goals try (rw [← hRes] at hs2; exact Except.noConfusion hs2)
  subst hEff
  exact ⟨_, _, _,
    List.mem_cons_of_mem _ (List.mem_cons_of_mem _ (List.mem_cons_of_mem _
      (List.mem_cons_of_mem _ (List.mem_cons_of_mem _ (List.mem_cons_self _ _))))),
    hts⟩

/-- C10: the slot arithmetic of `fetch_best_bid` (mock_builder.rs:234) is
unguarded u64 subtraction: when the requested slot is below the chain
specification's genesis slot, the call does not fail there — it can still
succeed, carrying the wrapped slots-since-genesis value
`2^64 - (genesis_slot - slot)` into the timestamp it hands to the execution
layer. -/
theorem fetch_best_bid_slot_underflow
    (env : Env) (req : BidRequest) (sb : SignedBuilderBid)
    (hs : (fetch_best_bid env req).2 = .ok sb)
    (hlt : req.slot < env.spec.genesis_slot)
    (hgs : env.spec.genesis_slot < 2 ^ 64) :
    ∃ (root vi : Nat) (attrs : PayloadAttributes),
      Effect.insertProposer req.slot root vi attrs ∈ (fetch_best_bid env req).1 ∧
      attrs.timestamp =
        u64_add (u64_mul (2 ^ 64 - (env.spec.genesis_slot - req.slot))
          env.spec.seconds_per_slot) env.genesisTime := by
  have hts : u64_add (u64_mul (u64_sub req.slot env.spec.genesis_slot)
      env.spec.seconds_per_slot) env.genesisTime =
      u64_add (u64_mul (2 ^ 64 - (env.spec.genesis_slot - req.slot))
        env.spec.seconds_per_slot) env.genesisTime := by
    rw [u64_sub_underflow req.slot env.spec.genesis_slot hlt hgs]
  rcases hF : fetch_best_bid env req with ⟨effects, res⟩
  have hs2 : res = .ok sb := by rw [hF] at hs; exact hs
  simp only [fetch_best_bid] at hF
  repeat' split at hF
  all_goals (injection hF with hEff hRes)
  all_goals try (rw [← hRes] at hs2; exact Except.noConfusion hs2)
  subst hEff
  exact ⟨_, _, _,
    List.mem_cons_of_mem _ (List.mem_cons_of_mem _ (List.mem_cons_of_mem _
      (List.mem_cons_of_mem _ (List.mem_cons_of_mem _ (List.mem_cons_self _ _))))),
    hts⟩

theorem fetch_best_bid_timestamp_witness :
    (fetch_best_bid envOk reqOk).2 = .ok sbOk ∧
    reqOk.slot < 2 ^ 64 ∧
    envOk.spec.genesis_slot ≤ reqOk.slot ∧
    envOk.spec.seconds_per_slot < 2 ^ 64 ∧
    (reqOk.slot - envOk.spec.genesis_slot) * envOk.spec.seconds_per_slot
        + envOk.genesisTime < 2 ^ 64 ∧
    ∃ (root vi : Nat) (attrs : PayloadAttributes),
      Effect.insertProposer reqOk.slot root vi attrs ∈ (fetch_best_bid envOk reqOk).1 ∧
      attrs.timestamp =
        envOk.genesisTime +
          (reqOk.slot - envOk.spec.genesis_slot) * envOk.spec.seconds_per_slot :=
  ⟨rfl, by norm_num [reqOk], by norm_num [reqOk, envOk], by norm_num [envOk],
   by norm_num [reqOk, envOk],
   fetch_best_bid_timestamp envOk reqOk sbOk rfl (by norm_num [reqOk])
     (by norm_num [reqOk, envOk]) (by norm_num [envOk])
     (by norm_num [reqOk, envOk])⟩

theorem fetch_best_bid_slot_underflow_witness :
    (fetch_best_bid envUnderflow reqUnderflow).2 = .ok sbUnderflow ∧
    reqUnderflow.slot < envUnderflow.spec.genesis_slot ∧
    envUnderflow.spec.genesis_slot < 2 ^ 64 ∧
    ∃ (root vi : Nat) (attrs : PayloadAttributes),
      Effect.insertProposer reqUnderflow.slot root vi attrs ∈
          (fetch_best_bid envUnderflow reqUnderflow).1 ∧
      attrs.timestamp =
        u64_add (u64_mul (2 ^ 64 - (envUnderflow.spec.genesis_slot - reqUnderflow.slot))
          envUnderflow.spec.seconds_per_slot) envUnderflow.genesisTime :=
  ⟨rfl, by norm_num [reqUnderflow, envUnderflow], by norm_num [envUnderflow],
   fetch_best_bid_slot_underflow envUnderflow reqUnderflow sbUnderflow rfl
     (by norm_num [reqUnderflow, envUnderflow]) (by norm_num [envUnderflow])⟩

end MockBuilder

